import Mathlib

/-!
Shallow embedding of `src/netmikio/netmikio.py`: the class `aioConnectHandler`,
an asynchronous scoped-session wrapper around the external netmiko library.

The external library (netmiko's `ConnectHandler` factory and the methods
`send_command`, `send_config_set`, `send_command_timing`, `disconnect` of the
connection object it returns) is not part of this repository; it is modelled
as an environment `Netmiko H` of functions returning `Except Exc _`, where the
handle type `H` is abstract.  Each wrapper operation is embedded as a pure
function taking the environment and the wrapper state and returning
`(outcome, post-state, trace of underlying calls)`; the trace records exactly
which underlying library operations were invoked and with which arguments,
mirroring the single delegated call each Python method performs inside
`loop.run_in_executor`.

Exceptions are one inductive `Exc`: the two wrapper exception classes
(`TimeoutException`, `AuthenticationException`, each carrying a message), the
two netmiko exception classes the code catches (`NetmikoTimeoutException`,
`NetMikoAuthenticationException`), arbitrary other underlying failures, and
the Python `AttributeError` that accessing an attribute of `None` raises.

`asyncWith` embeds Python's `async with` protocol composing `__aenter__` and
`__aexit__`: entry failure propagates without calling exit; otherwise the body
runs on the returned session, exit always runs, an exception raised by exit
replaces the body's, and a body exception is suppressed only when exit returns
a truthy value (the embedded `__aexit__` returns `None`, i.e. `false`).
-/

namespace Netmikio

/-- A host configuration: the keyword arguments `**host` passed to the
constructor, an open-ended mapping from parameter names to values. -/
abbrev Host := List (String × String)

/-- The exceptions that can flow through this layer. -/
inductive Exc where
  /-- `aioConnectHandler.TimeoutException`, with its message. -/
  | timeoutException (msg : String)
  /-- `aioConnectHandler.AuthenticationException`, with its message. -/
  | authenticationException (msg : String)
  /-- netmiko's `NetmikoTimeoutException`. -/
  | netmikoTimeout
  /-- netmiko's `NetMikoAuthenticationException`. -/
  | netmikoAuth
  /-- Any other failure raised by the underlying library. -/
  | otherUnderlying (info : String)
  /-- Python `AttributeError` from attribute access on `None`. -/
  | attributeErrorNone
  deriving DecidableEq

/-- One call into the underlying netmiko library, with its arguments. -/
inductive NetmikoCall (H : Type) where
  /-- `ConnectHandler(**host)`. -/
  | connectHandler (host : Host)
  /-- `connection.send_command(command)`. -/
  | send_command (h : H) (command : String)
  /-- `connection.send_config_set(commands)`. -/
  | send_config_set (h : H) (commands : List String)
  /-- `connection.send_command_timing(command)`. -/
  | send_command_timing (h : H) (command : String)
  /-- `connection.disconnect()`. -/
  | disconnect (h : H)
  deriving DecidableEq

/-- The behaviour of the external netmiko library: what each underlying
blocking call returns (or raises) for given arguments.  `H` is the opaque
type of established connection handles. -/
structure Netmiko (H : Type) where
  connect : Host → Except Exc H
  send_command : H → String → Except Exc String
  send_config_set : H → List String → Except Exc String
  send_command_timing : H → String → Except Exc String
  disconnect : H → Except Exc Unit

/-- The state of an `aioConnectHandler` instance: the stored configuration
`self.host` and the optional stored handle `self.connection`. -/
structure aioConnectHandler (H : Type) where
  host : Host
  connection : Option H
  deriving DecidableEq

/-- `__init__(self, **host)`: store the configuration unchanged and set
`self.connection = None`.  No underlying call is made. -/
def init {H : Type} (host : Host) : aioConnectHandler H :=
  { host := host, connection := none }

/-- The outcome of a wrapper operation returning `α`: the result or the
exception, the post-state of the wrapper, and the underlying calls made. -/
abbrev Outcome (H α : Type) := Except Exc α × aioConnectHandler H × List (NetmikoCall H)

/-- `__aenter__`: run `CH(**self.host)` in the executor.  On success assign
the handle to `self.connection` and return `self`.  `NetmikoTimeoutException`
is translated to `TimeoutException('Connection timed out.')` and
`NetMikoAuthenticationException` to
`AuthenticationException('Authentication failed.')`; any other exception
propagates unchanged.  The assignment happens only after the awaited call
returns, so a failing call leaves `self.connection` untouched. -/
def aenter {H : Type} (env : Netmiko H) (s : aioConnectHandler H) :
    Outcome H (aioConnectHandler H) :=
  match env.connect s.host with
  | .ok c =>
      let s2 : aioConnectHandler H := { s with connection := some c }
      (.ok s2, s2, [.connectHandler s.host])
  | .error .netmikoTimeout =>
      (.error (.timeoutException "Connection timed out."), s, [.connectHandler s.host])
  | .error .netmikoAuth =>
      (.error (.authenticationException "Authentication failed."), s, [.connectHandler s.host])
  | .error e =>
      (.error e, s, [.connectHandler s.host])

/-- `__aexit__(self, exc_type, exc_val, exc_tb)`: run
`self.connection.disconnect` in the executor, ignoring the exception
information.  If `self.connection` is `None`, the attribute access raises
`AttributeError` before any underlying call.  The method returns `None`
(embedded as `false`: exceptions are never suppressed) and does not clear
`self.connection`. -/
def aexit {H : Type} (env : Netmiko H) (s : aioConnectHandler H)
    (_excInfo : Option Exc) : Outcome H Bool :=
  match s.connection with
  | none => (.error .attributeErrorNone, s, [])
  | some c =>
      match env.disconnect c with
      | .ok _ => (.ok false, s, [.disconnect c])
      | .error e => (.error e, s, [.disconnect c])

/-- `send_com(self, command)`: run `self.connection.send_command(command)`
in the executor and return its result unchanged. -/
def send_com {H : Type} (env : Netmiko H) (s : aioConnectHandler H)
    (command : String) : Outcome H String :=
  match s.connection with
  | none => (.error .attributeErrorNone, s, [])
  | some c => (env.send_command c command, s, [.send_command c command])

/-- `send_conf_set(self, commands)`: run
`self.connection.send_config_set(commands)` in the executor and return its
result unchanged; the sequence is passed through verbatim. -/
def send_conf_set {H : Type} (env : Netmiko H) (s : aioConnectHandler H)
    (commands : List String) : Outcome H String :=
  match s.connection with
  | none => (.error .attributeErrorNone, s, [])
  | some c => (env.send_config_set c commands, s, [.send_config_set c commands])

/-- `send_com_timing(self, command)`: run
`self.connection.send_command_timing(command)` in the executor and return its
result unchanged. -/
def send_com_timing {H : Type} (env : Netmiko H) (s : aioConnectHandler H)
    (command : String) : Outcome H String :=
  match s.connection with
  | none => (.error .attributeErrorNone, s, [])
  | some c => (env.send_command_timing c command, s, [.send_command_timing c command])

/-- Python's `async with` protocol applied to `aioConnectHandler`:
`__aenter__` first (its failure propagates and `__aexit__` is not called);
otherwise the body runs on the session object `__aenter__` returned,
`__aexit__` always runs next, an exception raised by `__aexit__` replaces the
body's, and a body exception is suppressed (result `.ok none`) only when
`__aexit__` returns a truthy value. -/
def asyncWith {H β : Type} (env : Netmiko H) (s : aioConnectHandler H)
    (body : aioConnectHandler H → Outcome H β) : Outcome H (Option β) :=
  match aenter env s with
  | (.error e, s1, t1) => (.error e, s1, t1)
  | (.ok sess, _, t1) =>
      let br := body sess
      let ar := aexit env br.2.1
        (match br.1 with | .ok _ => none | .error e => some e)
      match ar.1 with
      | .error e2 => (.error e2, ar.2.1, t1 ++ (br.2.2 ++ ar.2.2))
      | .ok supp =>
          match br.1 with
          | .ok b => (.ok (some b), ar.2.1, t1 ++ (br.2.2 ++ ar.2.2))
          | .error e =>
              if supp then (.ok none, ar.2.1, t1 ++ (br.2.2 ++ ar.2.2))
              else (.error e, ar.2.1, t1 ++ (br.2.2 ++ ar.2.2))

/-- Whether an underlying call is the `disconnect` operation. -/
def NetmikoCall.isDisconnect {H : Type} : NetmikoCall H → Bool
  | .disconnect _ => true
  | _ => false

/-- How many `disconnect` calls a trace contains. -/
def disconnectCount {H : Type} (t : List (NetmikoCall H)) : Nat :=
  (t.filter NetmikoCall.isDisconnect).length

/-! ### Helper lemmas -/

theorem disconnectCount_append {H : Type} (t u : List (NetmikoCall H)) :
    disconnectCount (t ++ u) = disconnectCount t + disconnectCount u := by
  simp [disconnectCount, List.filter_append]

theorem aenter_ok {H : Type} (env : Netmiko H) (s : aioConnectHandler H) (c : H)
    (hc : env.connect s.host = .ok c) :
    aenter env s =
      (.ok { s with connection := some c }, { s with connection := some c },
        [.connectHandler s.host]) := by
  simp [aenter, hc]

theorem aexit_some {H : Type} (env : Netmiko H) (s : aioConnectHandler H) (c : H)
    (exc : Option Exc) (hc : s.connection = some c) :
    aexit env s exc =
      ((match env.disconnect c with
        | .ok _ => .ok false
        | .error e => .error e), s, [NetmikoCall.disconnect c]) := by
  rcases hd : env.disconnect c with u | e <;> simp [aexit, hc, hd]

theorem send_com_post_state {H : Type} (env : Netmiko H) (s : aioConnectHandler H)
    (command : String) : (send_com env s command).2.1 = s := by
  rcases hc : s.connection with _ | c <;> simp [send_com, hc]

theorem disconnectCount_connectHandler {H : Type} (host : Host) :
    disconnectCount ([.connectHandler host] : List (NetmikoCall H)) = 0 := rfl

theorem disconnectCount_disconnect {H : Type} (c : H) :
    disconnectCount [NetmikoCall.disconnect c] = 1 := rfl

theorem filter_isDisconnect_eq_nil {H : Type} (t : List (NetmikoCall H))
    (h : disconnectCount t = 0) : t.filter NetmikoCall.isDisconnect = [] :=
  List.length_eq_zero.mp h

/-- Under a successful entry and a body that leaves the stored handle in
place, the wrapper state after the whole scoped block still holds the
handle: `__aexit__` never writes to `self.connection`. -/
theorem asyncWith_post_connection {H β : Type} (env : Netmiko H)
    (s : aioConnectHandler H) (c : H) (body : aioConnectHandler H → Outcome H β)
    (hc : env.connect s.host = .ok c)
    (hbc : ∀ a, ((body a).2.1).connection = a.connection) :
    ((asyncWith env s body).2.1).connection = some c := by
  have h1 := aenter_ok env s c hc
  have hs2 : ((body { s with connection := some c }).2.1).connection = some c := by
    rw [hbc]
  have hx : ∀ exc, aexit env (body { s with connection := some c }).2.1 exc =
      ((match env.disconnect c with
        | .ok _ => .ok false
        | .error e => .error e), (body { s with connection := some c }).2.1,
        [NetmikoCall.disconnect c]) :=
    fun exc => aexit_some env _ c exc hs2
  rcases hr : (body { s with connection := some c }).1 with b | e <;>
    rcases hd : env.disconnect c with u | e2 <;>
      simp [asyncWith, h1, hr, hx, hd, hs2]

/-! ### Concrete fixtures used by witnesses and counterexamples -/

/-- The concrete configuration from the testable-properties scenario. -/
def hostW : Host :=
  [("ip", "10.0.0.1"), ("device_type", "cisco_ios"), ("username", "u"), ("password", "p")]

/-- A concrete environment whose connection attempt succeeds with handle `7`. -/
def envW : Netmiko Nat where
  connect := fun _ => .ok 7
  send_command := fun _ command => .ok (String.append "prompt " command)
  send_config_set := fun _ _ => .ok "config applied"
  send_command_timing := fun _ command => .ok (String.append "timing " command)
  disconnect := fun _ => .ok ()

/-- A concrete environment whose connection attempt raises
`NetmikoTimeoutException`. -/
def envT : Netmiko Nat where
  connect := fun _ => .error .netmikoTimeout
  send_command := fun _ _ => .ok ""
  send_config_set := fun _ _ => .ok ""
  send_command_timing := fun _ _ => .ok ""
  disconnect := fun _ => .ok ()

/-- A concrete environment whose connection attempt raises
`NetMikoAuthenticationException`. -/
def envA : Netmiko Nat where
  connect := fun _ => .error .netmikoAuth
  send_command := fun _ _ => .ok ""
  send_config_set := fun _ _ => .ok ""
  send_command_timing := fun _ _ => .ok ""
  disconnect := fun _ => .ok ()

/-- A concrete environment whose every underlying call fails with an
exception that is neither of the two translated netmiko conditions. -/
def envF : Netmiko Nat where
  connect := fun _ => .error (.otherUnderlying "ssh dropped")
  send_command := fun _ _ => .error (.otherUnderlying "ssh dropped")
  send_config_set := fun _ _ => .error (.otherUnderlying "ssh dropped")
  send_command_timing := fun _ _ => .error (.otherUnderlying "ssh dropped")
  disconnect := fun _ => .error (.otherUnderlying "ssh dropped")

/-- A concrete wrapper state holding handle `7`. -/
def sW : aioConnectHandler Nat := { host := hostW, connection := some 7 }

/-- A concrete scoped-block body that raises an untranslated device error,
touching neither the wrapper state nor the underlying library. -/
def bodyFail : aioConnectHandler Nat → Outcome Nat String :=
  fun a => (.error (.otherUnderlying "device error"), a, [])

/-! ### Claims -/

/-- C1: if the underlying connection attempt during `__aenter__` raises
`NetmikoTimeoutException`, entry fails with the wrapper's `TimeoutException`
whose message is exactly "Connection timed out.", and no handle is stored:
the `connection` field of a freshly constructed wrapper is still `none`
after the failed entry. -/
theorem entry_timeout_translated_no_handle {H : Type} (env : Netmiko H) (host : Host)
    (hc : env.connect host = .error .netmikoTimeout) :
    (aenter env (init host)).1 = .error (.timeoutException "Connection timed out.") ∧
    ((aenter env (init host)).2.1).connection = none := by
  simp [aenter, init, hc]

/-- Witness for C1 at the concrete timeout environment. -/
theorem entry_timeout_translated_no_handle_witness :
    (aenter envT (init hostW)).1 =
      .error (.timeoutException "Connection timed out.") ∧
    ((aenter envT (init hostW)).2.1).connection = none :=
  entry_timeout_translated_no_handle envT hostW rfl

/-- C2: if the underlying connection attempt during `__aenter__` raises
`NetMikoAuthenticationException`, entry fails with the wrapper's
`AuthenticationException` whose message is exactly "Authentication failed.",
and no handle is stored: the `connection` field of a freshly constructed
wrapper is still `none` after the failed entry. -/
theorem entry_auth_translated_no_handle {H : Type} (env : Netmiko H) (host : Host)
    (hc : env.connect host = .error .netmikoAuth) :
    (aenter env (init host)).1 = .error (.authenticationException "Authentication failed.") ∧
    ((aenter env (init host)).2.1).connection = none := by
  simp [aenter, init, hc]

/-- Witness for C2 at the concrete authentication-failure environment. -/
theorem entry_auth_translated_no_handle_witness :
    (aenter envA (init hostW)).1 =
      .error (.authenticationException "Authentication failed.") ∧
    ((aenter envA (init hostW)).2.1).connection = none :=
  entry_auth_translated_no_handle envA hostW rfl

/-- C7: when the underlying connection attempt succeeds, `__aenter__` stores
the resulting handle in the wrapper and returns the wrapper itself: the value
returned is exactly the post-state (the same object), with the handle stored
and the configuration untouched. -/
theorem aenter_stores_handle_returns_self {H : Type} (env : Netmiko H)
    (s : aioConnectHandler H) (c : H) (hc : env.connect s.host = .ok c) :
    (aenter env s).1 = .ok ((aenter env s).2.1) ∧
    ((aenter env s).2.1).connection = some c ∧
    ((aenter env s).2.1).host = s.host := by
  simp [aenter, hc]

/-- Witness for C7 at the concrete successful environment. -/
theorem aenter_stores_handle_returns_self_witness :
    (aenter envW (init hostW)).1 = .ok ((aenter envW (init hostW)).2.1) ∧
    ((aenter envW (init hostW)).2.1).connection = some 7 ∧
    ((aenter envW (init hostW)).2.1).host = (init hostW : aioConnectHandler Nat).host :=
  aenter_stores_handle_returns_self envW (init hostW) 7 rfl

/-- C8: the constructor stores the supplied configuration unchanged and does
not connect: immediately after construction the stored configuration equals
the parameters and the wrapper holds no connection handle. -/
theorem init_stores_config_unchanged_no_connect {H : Type} (host : Host) :
    (init host : aioConnectHandler H).host = host ∧
    (init host : aioConnectHandler H).connection = none :=
  ⟨rfl, rfl⟩

/-- C10: each of `send_com`, `send_conf_set` and `send_com_timing` leaves the
wrapper state (stored configuration and stored handle) unchanged, for every
command argument and every underlying outcome. -/
theorem send_ops_preserve_state {H : Type} (env : Netmiko H)
    (s : aioConnectHandler H) (command : String) (commands : List String) :
    (send_com env s command).2.1 = s ∧
    (send_conf_set env s commands).2.1 = s ∧
    (send_com_timing env s command).2.1 = s := by
  refine ⟨?_, ?_, ?_⟩ <;>
    rcases hc : s.connection with _ | c <;>
      simp [send_com, send_conf_set, send_com_timing, hc]

/-- C3: with a stored handle, `send_com` invokes exactly the underlying
`send_command`, `send_conf_set` exactly `send_config_set` (receiving the
sequence verbatim, in the given order), and `send_com_timing` exactly
`send_command_timing`; each passes its argument through unchanged and returns
the underlying result unchanged, and the prompt-based and timing-based calls
are distinct underlying operations even for the identical command string. -/
theorem send_ops_delegate_verbatim {H : Type} (env : Netmiko H)
    (s : aioConnectHandler H) (c : H) (command : String) (commands : List String)
    (hc : s.connection = some c) :
    ((send_com env s command).1 = env.send_command c command ∧
      (send_com env s command).2.2 = [NetmikoCall.send_command c command]) ∧
    ((send_conf_set env s commands).1 = env.send_config_set c commands ∧
      (send_conf_set env s commands).2.2 = [NetmikoCall.send_config_set c commands]) ∧
    ((send_com_timing env s command).1 = env.send_command_timing c command ∧
      (send_com_timing env s command).2.2 =
        [NetmikoCall.send_command_timing c command]) ∧
    NetmikoCall.send_command c command ≠ NetmikoCall.send_command_timing c command := by
  simp [send_com, send_conf_set, send_com_timing, hc]

/-- Witness for C3 at the concrete environment, handle `7`, a command and an
ordered three-command sequence. -/
theorem send_ops_delegate_verbatim_witness :
    ((send_com envW sW "show run").1 = envW.send_command 7 "show run" ∧
      (send_com envW sW "show run").2.2 = [NetmikoCall.send_command 7 "show run"]) ∧
    ((send_conf_set envW sW ["a", "b", "c"]).1 =
        envW.send_config_set 7 ["a", "b", "c"] ∧
      (send_conf_set envW sW ["a", "b", "c"]).2.2 =
        [NetmikoCall.send_config_set 7 ["a", "b", "c"]]) ∧
    ((send_com_timing envW sW "show run").1 = envW.send_command_timing 7 "show run" ∧
      (send_com_timing envW sW "show run").2.2 =
        [NetmikoCall.send_command_timing 7 "show run"]) ∧
    NetmikoCall.send_command 7 "show run" ≠ NetmikoCall.send_command_timing 7 "show run" :=
  send_ops_delegate_verbatim envW sW 7 "show run" ["a", "b", "c"] rfl

/-- C5: exactly the two netmiko failure conditions, and only during
connection establishment, are translated into the wrapper's typed
exceptions; any other exception during entry, and every failure during
`send_com`, `send_conf_set`, `send_com_timing` and disconnect, propagates to
the caller unchanged. -/
theorem two_translations_rest_propagates {H : Type} (env : Netmiko H)
    (s : aioConnectHandler H) (c : H) (command : String) (commands : List String)
    (exc : Option Exc) (e : Exc) (hc : s.connection = some c) :
    ((env.connect s.host = .error .netmikoTimeout →
        (aenter env s).1 = .error (.timeoutException "Connection timed out.")) ∧
      (env.connect s.host = .error .netmikoAuth →
        (aenter env s).1 = .error (.authenticationException "Authentication failed.")) ∧
      (e ≠ .netmikoTimeout → e ≠ .netmikoAuth → env.connect s.host = .error e →
        (aenter env s).1 = .error e)) ∧
    ((env.send_command c command = .error e → (send_com env s command).1 = .error e) ∧
      (env.send_config_set c commands = .error e →
        (send_conf_set env s commands).1 = .error e) ∧
      (env.send_command_timing c command = .error e →
        (send_com_timing env s command).1 = .error e) ∧
      (env.disconnect c = .error e → (aexit env s exc).1 = .error e)) := by
  refine ⟨⟨fun h => ?_, fun h => ?_, fun h1 h2 h => ?_⟩,
    fun h => ?_, fun h => ?_, fun h => ?_, fun h => ?_⟩
  · simp [aenter, h]
  · simp [aenter, h]
  · cases e <;> simp_all [aenter]
  · simp [send_com, hc, h]
  · simp [send_conf_set, hc, h]
  · simp [send_com_timing, hc, h]
  · simp [aexit, hc, h]

/-- Witness for C5: a concrete environment whose underlying calls all fail
with an untranslated exception; each failure surfaces unchanged. -/
theorem two_translations_rest_propagates_witness :
    (aenter envF sW).1 = .error (.otherUnderlying "ssh dropped") ∧
    (send_com envF sW "show run").1 = .error (.otherUnderlying "ssh dropped") ∧
    (send_conf_set envF sW ["a", "b"]).1 = .error (.otherUnderlying "ssh dropped") ∧
    (send_com_timing envF sW "show run").1 = .error (.otherUnderlying "ssh dropped") ∧
    (aexit envF sW none).1 = .error (.otherUnderlying "ssh dropped") :=
  ⟨(two_translations_rest_propagates envF sW 7 "show run" ["a", "b"] none
      (.otherUnderlying "ssh dropped") rfl).1.2.2 (by decide) (by decide) rfl,
   (two_translations_rest_propagates envF sW 7 "show run" ["a", "b"] none
      (.otherUnderlying "ssh dropped") rfl).2.1 rfl,
   (two_translations_rest_propagates envF sW 7 "show run" ["a", "b"] none
      (.otherUnderlying "ssh dropped") rfl).2.2.1 rfl,
   (two_translations_rest_propagates envF sW 7 "show run" ["a", "b"] none
      (.otherUnderlying "ssh dropped") rfl).2.2.2.1 rfl,
   (two_translations_rest_propagates envF sW 7 "show run" ["a", "b"] none
      (.otherUnderlying "ssh dropped") rfl).2.2.2.2 rfl⟩

/-- C4: when entry succeeds and the body of the scoped block makes no
disconnect call of its own and leaves the stored handle in place, the whole
scoped execution invokes the underlying disconnect exactly once — never zero
times, never twice — whether the body returned normally or raised; and an
exception raised inside the body is neither suppressed nor transformed: once
disconnect completes, the body's exception is the overall outcome. -/
theorem scoped_exit_disconnects_once_propagates {H β : Type} (env : Netmiko H)
    (s : aioConnectHandler H) (c : H)
    (body : aioConnectHandler H → Outcome H β)
    (hc : env.connect s.host = .ok c)
    (hbc : ∀ a, ((body a).2.1).connection = a.connection)
    (hbt : ∀ a, disconnectCount (body a).2.2 = 0) :
    disconnectCount (asyncWith env s body).2.2 = 1 ∧
    (∀ e, (body { s with connection := some c }).1 = .error e →
      env.disconnect c = .ok () →
      (asyncWith env s body).1 = .error e) := by
  have h1 := aenter_ok env s c hc
  have hs2 : ((body { s with connection := some c }).2.1).connection = some c := by
    rw [hbc]
  have hx : ∀ exc, aexit env (body { s with connection := some c }).2.1 exc =
      ((match env.disconnect c with
        | .ok _ => .ok false
        | .error e => .error e), (body { s with connection := some c }).2.1,
        [NetmikoCall.disconnect c]) :=
    fun exc => aexit_some env _ c exc hs2
  constructor
  · have hnil := filter_isDisconnect_eq_nil _ (hbt { s with connection := some c })
    rcases hr : (body { s with connection := some c }).1 with b | e <;>
      rcases hd : env.disconnect c with u | e2 <;>
        simp [asyncWith, h1, hr, hx, hd, disconnectCount, List.filter_cons,
          List.filter_append, NetmikoCall.isDisconnect, hnil]
  · intro e he hd
    simp [asyncWith, h1, he, hx, hd]

/-- Witness for C4: concrete runs in which the body succeeds and in which it
fails, each invoking disconnect exactly once, with the body's failure
surfacing unchanged. -/
theorem scoped_exit_disconnects_once_propagates_witness :
    disconnectCount
        (asyncWith envW (init hostW) (fun a => send_com envW a "show run")).2.2 = 1 ∧
    disconnectCount (asyncWith envW (init hostW) bodyFail).2.2 = 1 ∧
    (asyncWith envW (init hostW) bodyFail).1 =
      .error (.otherUnderlying "device error") :=
  ⟨(scoped_exit_disconnects_once_propagates envW (init hostW) 7
      (fun a => send_com envW a "show run") rfl
      (fun a => by rw [send_com_post_state])
      (fun a => by rcases h : a.connection with _ | c <;>
        simp [send_com, h, disconnectCount, NetmikoCall.isDisconnect])).1,
   (scoped_exit_disconnects_once_propagates envW (init hostW) 7 bodyFail rfl
      (fun _ => rfl) (fun _ => rfl)).1,
   (scoped_exit_disconnects_once_propagates envW (init hostW) 7 bodyFail rfl
      (fun _ => rfl) (fun _ => rfl)).2
     (.otherUnderlying "device error") rfl rfl⟩

/-- Counterexample to C6 as stated: after a scoped block over a successful
connection exits, the handle field is not absent — `__aexit__` never clears
`self.connection`, so it still holds the released handle. -/
theorem handle_absent_after_exit_counterexample :
    ((asyncWith envW (init hostW)
        (fun a => send_com envW a "show version")).2.1).connection = some 7 ∧
      some 7 ≠ (none : Option Nat) :=
  ⟨rfl, by decide⟩

/-- C6 (amended): the handle field is absent (`none`) before entry and holds
the established handle between successful entry and exit; after exit the
wrapper does not clear the field — it still holds the released handle, which
must not be reused, rather than reverting to `none`. -/
theorem handle_lifecycle_not_cleared {H β : Type} (env : Netmiko H) (host : Host)
    (c : H) (body : aioConnectHandler H → Outcome H β)
    (hc : env.connect host = .ok c)
    (hbc : ∀ a, ((body a).2.1).connection = a.connection) :
    (init host : aioConnectHandler H).connection = none ∧
    ((aenter env (init host)).2.1).connection = some c ∧
    ((asyncWith env (init host) body).2.1).connection = some c := by
  have hch : env.connect (init host : aioConnectHandler H).host = .ok c := hc
  have h1 := aenter_ok env (init host) c hch
  exact ⟨rfl, by simp [h1], asyncWith_post_connection env (init host) c body hch hbc⟩

/-- Witness for the amended C6 at the concrete successful environment. -/
theorem handle_lifecycle_not_cleared_witness :
    (init hostW : aioConnectHandler Nat).connection = none ∧
    ((aenter envW (init hostW)).2.1).connection = some 7 ∧
    ((asyncWith envW (init hostW)
        (fun a => send_com envW a "show run")).2.1).connection = some 7 :=
  handle_lifecycle_not_cleared envW hostW 7 (fun a => send_com envW a "show run")
    rfl (fun a => by rw [send_com_post_state])

/-- C9: invoking `__aexit__` on a wrapper whose acquisition never succeeded
(the handle field still `none`) fails — the attribute access on `None`
raises before any underlying call; and after a successful `__aenter__` the
handle is present, so under the enter/exit pairing of the scoped-block
protocol release always operates on a present handle, delegating to the
underlying disconnect. -/
theorem aexit_none_fails_pairing_safe {H : Type} (env : Netmiko H)
    (s : aioConnectHandler H) (exc : Option Exc) (c : H) :
    (s.connection = none →
      (aexit env s exc).1 = .error .attributeErrorNone ∧ (aexit env s exc).2.2 = []) ∧
    (s.connection = some c → (aexit env s exc).2.2 = [NetmikoCall.disconnect c]) ∧
    (env.connect s.host = .ok c → ((aenter env s).2.1).connection = some c) := by
  refine ⟨fun h => ?_, fun h => ?_, fun h => ?_⟩
  · simp [aexit, h]
  · rcases hd : env.disconnect c with u | e <;> simp [aexit, h, hd]
  · simp [aenter, h]

/-- Witness for C9: on a fresh wrapper release fails with the `None`
attribute error and makes no underlying call; with a stored handle it calls
disconnect; after a successful entry the handle is present. -/
theorem aexit_none_fails_pairing_safe_witness :
    ((aexit envW (init hostW) none).1 = .error .attributeErrorNone ∧
      (aexit envW (init hostW) none).2.2 = []) ∧
    (aexit envW sW none).2.2 = [NetmikoCall.disconnect 7] ∧
    ((aenter envW sW).2.1).connection = some 7 :=
  ⟨(aexit_none_fails_pairing_safe envW (init hostW) none 7).1 rfl,
   (aexit_none_fails_pairing_safe envW sW none 7).2.1 rfl,
   (aexit_none_fails_pairing_safe envW sW none 7).2.2 rfl⟩

end Netmikio
